import Mathlib

/-!
Verification of the Cura3.ai diagnosis orchestration core: a shallow
embedding of `backend/app/services/agent_engine.py`,
`backend/app/services/specialist_selector.py`, the validation step of
`backend/app/api/v1/routes/diagnosis.py`, and the model-call options of
`backend/app/services/chat_service.py`, with theorems about the concurrent
dispatcher, the aggregator, the auto-selector and the text sanitizer.

Python strings are embedded as `List Char`; the LLM backend (the Remote
Call Port) is an arbitrary function from the directive text to either the
response text or the raised exception's text, so theorems quantify over
every possible per-call outcome.  `asyncio.gather` returns worker results
in input order whatever the completion order, so the concurrent dispatch
collapses to an order-preserving traversal.
-/

/-- Python strings, embedded as lists of characters. -/
abbrev Str := List Char

/-- The characters of a Lean string literal, used to transcribe Python text. -/
def chars (s : String) : Str := s.data

/-- One left-to-right pass of Python's `str.replace`: every non-overlapping
occurrence of `pat` is replaced by `rep`, scanning the original text only
(the inserted `rep` is never rescanned).  The fuel argument makes the
recursion structural; `pyreplace` below supplies enough fuel that the
out-of-fuel branch is never taken.  Every pattern used in the sources is
non-empty; for an empty `pat` this model differs harmlessly from Python. -/
def replaceFuel (pat rep : Str) : Nat → Str → Str
  | _, [] => []
  | 0, s => s
  | fuel + 1, c :: rest =>
    if pat.isPrefixOf (c :: rest) then
      rep ++ replaceFuel pat rep fuel (rest.drop (pat.length - 1))
    else
      c :: replaceFuel pat rep fuel rest

/-- Python's `text.replace(old, new)`, arguments in source order. -/
def pyreplace (text pat rep : Str) : Str := replaceFuel pat rep text.length text

/-- The strings of `parts` all occur inside `s`, pairwise disjoint and in the
given order. -/
def containsSeq (s : Str) : List Str → Prop
  | [] => True
  | p :: ps => ∃ a b, s = a ++ p ++ b ∧ containsSeq b ps

/-- One entry of the `SPECIALISTS` registry in `agent_engine.py`: display
metadata and the task prompt template. -/
structure Specialist where
  display_name : Str
  icon : Str
  prompt : Str
deriving DecidableEq, Repr

def cardiologist_prompt : Str := chars "
            Act like a cardiologist. You will receive a medical report of a patient.
            Task: Review the patient's cardiac workup, including ECG, blood tests, Holter monitor results, and echocardiogram.
            Focus: Determine if there are any subtle signs of cardiac issues that could explain the patient's symptoms. Rule out any underlying heart conditions, such as arrhythmias or structural abnormalities, that might be missed on routine testing.
            Recommendation: Provide guidance on any further cardiac testing or monitoring needed to ensure there are no hidden heart-related concerns. Suggest potential management strategies if a cardiac issue is identified.
            Please only return the possible causes of the patient's symptoms and the recommended next steps.
            Medical Report: \x7bmedical_report\x7d
        "

def psychologist_prompt : Str := chars "
            Act like a psychologist. You will receive a patient's report.
            Task: Review the patient's report and provide a psychological assessment.
            Focus: Identify any potential mental health issues, such as anxiety, depression, or trauma, that may be affecting the patient's well-being.
            Recommendation: Offer guidance on how to address these mental health concerns, including therapy, counseling, or other interventions.
            Please only return the possible mental health issues and the recommended next steps.
            Patient's Report: \x7bmedical_report\x7d
        "

def pulmonologist_prompt : Str := chars "
            Act like a pulmonologist. You will receive a patient's report.
            Task: Review the patient's report and provide a pulmonary assessment.
            Focus: Identify any potential respiratory issues, such as asthma, COPD, or lung infections, that may be affecting the patient's breathing.
            Recommendation: Offer guidance on how to address these respiratory concerns, including pulmonary function tests, imaging studies, or other interventions.
            Please only return the possible respiratory issues and the recommended next steps.
            Patient's Report: \x7bmedical_report\x7d
        "

def neurologist_prompt : Str := chars "
            Act like a neurologist. You will receive a patient's medical report.
            Task: Review the patient's neurological symptoms, imaging results, and any relevant test findings.
            Focus: Identify potential neurological conditions such as neuropathy, seizure disorders, migraines, multiple sclerosis, or neurodegenerative diseases (e.g., Alzheimer's, Parkinson's).
            Recommendation: Suggest further neurological testing (EEG, MRI, nerve conduction studies) and management strategies.
            Please only return the possible neurological causes and the recommended next steps.
            Patient's Report: \x7bmedical_report\x7d
        "

def endocrinologist_prompt : Str := chars "
            Act like an endocrinologist. You will receive a patient's medical report.
            Task: Review the patient's hormonal profiles, metabolic markers, and endocrine-related symptoms.
            Focus: Identify potential endocrine disorders such as diabetes, thyroid disorders (hypo/hyperthyroidism), adrenal insufficiency, PCOS, or hormonal imbalances.
            Recommendation: Suggest appropriate hormonal panels, imaging, and management strategies.
            Please only return the possible endocrine causes and the recommended next steps.
            Patient's Report: \x7bmedical_report\x7d
        "

def oncologist_prompt : Str := chars "
            Act like an oncologist. You will receive a patient's medical report.
            Task: Review the patient's lab results, imaging, biopsy reports, and symptom history for any signs of malignancy.
            Focus: Identify potential neoplastic conditions, assess risk factors, and evaluate any suspicious findings that warrant further investigation for cancer.
            Recommendation: Suggest appropriate screening, biopsy, imaging (CT, PET scan), tumor markers, and referral pathways.
            Please only return the possible oncological concerns and the recommended next steps.
            Patient's Report: \x7bmedical_report\x7d
        "

def dermatologist_prompt : Str := chars "
            Act like a dermatologist. You will receive a patient's medical report.
            Task: Review the patient's skin-related symptoms, lesion descriptions, and any relevant history.
            Focus: Identify potential dermatological conditions such as eczema, psoriasis, skin infections, autoimmune skin disorders, or suspicious moles/lesions.
            Recommendation: Suggest further dermatological examination, biopsy if needed, and treatment approaches.
            Please only return the possible dermatological causes and the recommended next steps.
            Patient's Report: \x7bmedical_report\x7d
        "

def gastroenterologist_prompt : Str := chars "
            Act like a gastroenterologist. You will receive a patient's medical report.
            Task: Review the patient's gastrointestinal symptoms, lab results, and any imaging or endoscopy findings.
            Focus: Identify potential GI conditions such as IBS, IBD (Crohn's, ulcerative colitis), GERD, celiac disease, liver disorders, or GI malignancies.
            Recommendation: Suggest appropriate testing (endoscopy, colonoscopy, stool tests, imaging) and management strategies.
            Please only return the possible gastrointestinal causes and the recommended next steps.
            Patient's Report: \x7bmedical_report\x7d
        "

def orthopedist_prompt : Str := chars "
            Act like an orthopedist. You will receive a patient's medical report.
            Task: Review the patient's musculoskeletal symptoms, imaging results (X-ray, MRI), and physical examination findings.
            Focus: Identify potential orthopedic conditions such as fractures, arthritis, tendon injuries, disc herniation, or degenerative joint diseases.
            Recommendation: Suggest appropriate imaging, physical therapy, surgical consultation if needed, and pain management strategies.
            Please only return the possible musculoskeletal causes and the recommended next steps.
            Patient's Report: \x7bmedical_report\x7d
        "

def general_practitioner_prompt : Str := chars "
            Act like a general practitioner / family medicine physician. You will receive a patient's medical report.
            Task: Review the patient's overall health status, vital signs, symptoms, and medical history holistically.
            Focus: Identify common conditions, preventive care needs, and any red flags that require specialist referral. Consider the patient's complete picture including lifestyle factors.
            Recommendation: Suggest initial workup, lifestyle modifications, preventive measures, and appropriate specialist referrals.
            Please only return the possible health concerns and the recommended next steps.
            Patient's Report: \x7bmedical_report\x7d
        "

/-- The specialist registry of `agent_engine.py` (a Python dict keeps
insertion order, so it is embedded as an ordered association list). -/
def SPECIALISTS : List (Str × Specialist) := [
  (chars "Cardiologist", ⟨chars "Cardiologist", chars "heart", cardiologist_prompt⟩),
  (chars "Psychologist", ⟨chars "Psychologist", chars "brain", psychologist_prompt⟩),
  (chars "Pulmonologist", ⟨chars "Pulmonologist", chars "lungs", pulmonologist_prompt⟩),
  (chars "Neurologist", ⟨chars "Neurologist", chars "nerve", neurologist_prompt⟩),
  (chars "Endocrinologist", ⟨chars "Endocrinologist", chars "hormone", endocrinologist_prompt⟩),
  (chars "Oncologist", ⟨chars "Oncologist", chars "ribbon", oncologist_prompt⟩),
  (chars "Dermatologist", ⟨chars "Dermatologist", chars "skin", dermatologist_prompt⟩),
  (chars "Gastroenterologist", ⟨chars "Gastroenterologist", chars "stomach", gastroenterologist_prompt⟩),
  (chars "Orthopedist", ⟨chars "Orthopedist", chars "bone", orthopedist_prompt⟩),
  (chars "General Practitioner", ⟨chars "General Practitioner", chars "stethoscope", general_practitioner_prompt⟩)]

/-- `AVAILABLE_SPECIALISTS = list(SPECIALISTS.keys())`. -/
def AVAILABLE_SPECIALISTS : List Str := SPECIALISTS.map (fun p => p.1)

/-- The dict lookup `SPECIALISTS[name]`; `none` stands for a `KeyError`. -/
def lookupSpecialist (name : Str) : Option Specialist :=
  (SPECIALISTS.find? (fun p => p.1 == name)).map (fun p => p.2)

/-- The placeholder `_run_team_diagnosis` substitutes the reports into. -/
def SECTION_PLACEHOLDER : Str := chars "\x7bspecialist_reports_section\x7d"

/-- The 60-character equals-sign rule of the team prompt, built from two
halves. -/
def eq_rule : Str :=
  chars "==============================" ++ chars "=============================="

/-- The 60-character dash rule of the team prompt, built from two halves. -/
def dash_rule : Str :=
  chars "------------------------------" ++ chars "------------------------------"

/-- Everything of `TEAM_PROMPT_TEMPLATE` that stands before the placeholder
(the template splits as prefix, placeholder, final newline; the separator
rules are spliced in, keeping the text byte-identical to the source). -/
def TEAM_PROMPT_PRE : Str := chars "
Act as a multidisciplinary team of healthcare professionals.
You will receive specialist reports from multiple medical specialists
who each independently analyzed the same patient's medical report.

YOUR TASK:
Analyze all specialist reports and produce a comprehensive final diagnosis report.
Identify the TOP 3 most likely health issues for this patient.

IMPORTANT FORMATTING RULES - you MUST follow this exact structure:
- Use ONLY plain ASCII text. Do NOT use any special characters, unicode, or emojis.
- Do NOT use asterisks (*), bullet points, or markdown formatting.
- Use simple dashes (-) for any lists.
- Use the EXACT structure shown below.

OUTPUT FORMAT (follow this exactly):

" ++ eq_rule ++ chars "
                  FINAL DIAGNOSIS REPORT
" ++ eq_rule ++ chars "

PATIENT OVERVIEW:
[Brief 2-3 sentence summary of the patient's presenting complaints
and key findings across all specialist evaluations.]

" ++ dash_rule ++ chars "
IDENTIFIED HEALTH ISSUES
" ++ dash_rule ++ chars "

ISSUE 1: [Name of the condition]
Severity: [Low / Moderate / High / Critical]
Identified By: [Which specialist(s) flagged this]

Reasoning:
[Clear explanation of why this is suspected, referencing specific
findings from the specialist reports. 3-4 sentences.]

Recommended Next Steps:
- [Action item 1]
- [Action item 2]
- [Action item 3]

ISSUE 2: [Name of the condition]
Severity: [Low / Moderate / High / Critical]
Identified By: [Which specialist(s) flagged this]

Reasoning:
[Clear explanation. 3-4 sentences.]

Recommended Next Steps:
- [Action item 1]
- [Action item 2]
- [Action item 3]

ISSUE 3: [Name of the condition]
Severity: [Low / Moderate / High / Critical]
Identified By: [Which specialist(s) flagged this]

Reasoning:
[Clear explanation. 3-4 sentences.]

Recommended Next Steps:
- [Action item 1]
- [Action item 2]
- [Action item 3]

" ++ dash_rule ++ chars "
PRIORITY RECOMMENDATION
" ++ dash_rule ++ chars "
[1-2 sentences on which issue should be addressed first and why.]

" ++ dash_rule ++ chars "
NOTE: This report is generated by AI for research and educational
purposes only. It is NOT a substitute for professional medical
advice, diagnosis, or treatment. Always consult a qualified
healthcare provider for medical decisions.
" ++ dash_rule ++ chars "

"

/-- The `TEAM_PROMPT_TEMPLATE` literal of `agent_engine.py`, written as the
text standing before the placeholder, the placeholder itself, and the
trailing newline; the concatenation is byte-identical to the source's one
triple-quoted literal. -/
def TEAM_PROMPT_TEMPLATE : Str := TEAM_PROMPT_PRE ++ SECTION_PLACEHOLDER ++ chars "\n"

/-- The `replacements` table of `_sanitize_text` in `agent_engine.py`
(a Python dict iterated in insertion order). -/
def sanitize_replacements : List (Str × Str) := [
  (chars "‘", chars "'"), (chars "’", chars "'"),
  (chars "“", chars "\""), (chars "”", chars "\""),
  (chars "–", chars "-"), (chars "—", chars "--"),
  (chars "…", chars "..."), (chars "•", chars "-"),
  (chars "·", chars "-"), (chars "‣", chars "-"),
  (chars "●", chars "-"), (chars "○", chars "-"),
  (chars "→", chars "->")]

/-- `_sanitize_text`: the successive `text.replace(uc, ac)` loop. -/
def _sanitize_text (text : Str) : Str :=
  sanitize_replacements.foldl (fun t p => pyreplace t p.1 p.2) text

/-- The thirteen unicode characters the sanitizer maps to ASCII. -/
def mapped_unicode_chars : List Char :=
  ['‘', '’', '“', '”', '–', '—', '…',
   '•', '·', '‣', '●', '○', '→']

/-- The character `c` never occurs in any replacement text of `ps`, so the
corresponding replace passes cannot introduce it. -/
def preservedBy (c : Char) : List (Str × Str) → Bool
  | [] => true
  | pr :: rest => decide (c ∉ pr.2) && preservedBy c rest

/-- Some pass of `ps` replaces exactly the one-character pattern `c` by a text
free of `c`, and no later pass can reintroduce it. -/
def eliminatedBy (c : Char) : List (Str × Str) → Bool
  | [] => false
  | pr :: rest =>
    (decide (pr.1 = [c]) && decide (c ∉ pr.2) && preservedBy c rest)
      || eliminatedBy c rest

/-- The Remote Call Port: one outbound completion call, mapping the directive
text to the response text or to the text of the raised exception. -/
abbrev Port := Str → Except Str Str

/-- The constructor arguments of a `ChatOpenAI` call site. -/
structure ChatOpenAIConfig where
  temperature : ℚ
  model : Str
deriving DecidableEq

/-- `_get_model` in `agent_engine.py`: options of every specialist analysis
call and of the synthesis call. -/
def _get_model : ChatOpenAIConfig := ⟨0, chars "gpt-4.1"⟩

/-- The `ChatOpenAI(...)` options of `auto_select_specialists` in
`specialist_selector.py`. -/
def selector_model_config : ChatOpenAIConfig := ⟨0, chars "gpt-4.1"⟩

/-- The `ChatOpenAI(...)` options of `generate_chat_response` in
`chat_service.py` (the source comment reads "slightly creative"). -/
def chat_model_config : ChatOpenAIConfig := ⟨(0.3 : ℚ), chars "gpt-4.1"⟩

/-- One specialist's entry in the result dict built by `_run_specialist`. -/
structure AnalyzerResult where
  specialist_name : Str
  report_content : Str
deriving DecidableEq, Repr

/-- The placeholder of every specialist prompt template. -/
def MEDICAL_REPORT_PLACEHOLDER : Str := chars "\x7bmedical_report\x7d"

/-- The directive `_run_specialist` renders:
`PromptTemplate.from_template(spec["prompt"]).format(medical_report=...)`,
modelled as substitution of the template's single placeholder. -/
def specialist_directive (specialist_name medical_report : Str) : Str :=
  match lookupSpecialist specialist_name with
  | some spec => pyreplace spec.prompt MEDICAL_REPORT_PLACEHOLDER medical_report
  | none => []

/-- `_run_specialist` in `agent_engine.py`.  `none` models the `KeyError` a
name outside the registry raises before the `try` block; a Port failure is
caught and becomes the placeholder text.  The second component records the
directive this worker sent to the Port. -/
def _run_specialist (port : Port) (specialist_name medical_report : Str) :
    Option (AnalyzerResult × Str) :=
  match lookupSpecialist specialist_name with
  | none => none
  | some spec =>
    let prompt := pyreplace spec.prompt MEDICAL_REPORT_PLACEHOLDER medical_report
    match port prompt with
    | Except.ok content =>
      some (⟨specialist_name, _sanitize_text content⟩, prompt)
    | Except.error e =>
      some (⟨specialist_name, chars "Error: Could not generate report. " ++ e⟩, prompt)

/-- What `_run_specialist` yields for a registered specialist, split by the
Port's verdict on that specialist's directive (proved equal to
`_run_specialist` under a successful lookup). -/
def worker_outcome (port : Port) (medical_report specialist_name : Str) :
    AnalyzerResult × Str :=
  match port (specialist_directive specialist_name medical_report) with
  | Except.ok content =>
    (⟨specialist_name, _sanitize_text content⟩,
      specialist_directive specialist_name medical_report)
  | Except.error e =>
    (⟨specialist_name, chars "Error: Could not generate report. " ++ e⟩,
      specialist_directive specialist_name medical_report)

/-- The brace escaping `_run_team_diagnosis` applies to each report before
embedding it: `content.replace("{", "{{").replace("}", "}}")`. -/
def escapeBraces (content : Str) : Str :=
  pyreplace (pyreplace content (chars "\x7b") (chars "\x7b\x7b"))
    (chars "\x7d") (chars "\x7d\x7d")

/-- One iteration of the `reports_section` loop:
`f"\n{name} Report:\n{content}\n"` with the content brace-escaped. -/
def report_block (r : AnalyzerResult) : Str :=
  chars "\n" ++ r.specialist_name ++ chars " Report:\n"
    ++ escapeBraces r.report_content ++ chars "\n"

/-- The `reports_section` accumulation loop of `_run_team_diagnosis`. -/
def reports_section (specialist_reports : List AnalyzerResult) : Str :=
  specialist_reports.foldl (fun acc r => acc ++ report_block r) []

/-- `reports_section` written as a right fold (proved equal below). -/
def joinBlocks : List AnalyzerResult → Str
  | [] => []
  | r :: rest => report_block r ++ joinBlocks rest

/-- Each analyzer's name followed by its brace-escaped content, in input
order: the token sequence the synthesis directive must embed. -/
def embedded_parts : List AnalyzerResult → List Str
  | [] => []
  | r :: rest =>
    r.specialist_name :: escapeBraces r.report_content :: embedded_parts rest

/-- The one synthesis directive `_run_team_diagnosis` builds:
`TEAM_PROMPT_TEMPLATE.replace("{specialist_reports_section}", reports_section)`. -/
def team_prompt_text (specialist_reports : List AnalyzerResult) : Str :=
  pyreplace TEAM_PROMPT_TEMPLATE SECTION_PLACEHOLDER
    (reports_section specialist_reports)

/-- `_run_team_diagnosis` in `agent_engine.py`: the final diagnosis text, plus
the list of directives this call sent to the Port.  A Port failure is caught
and becomes the error-flagged final report. -/
def _run_team_diagnosis (port : Port) (specialist_reports : List AnalyzerResult) :
    Str × List Str :=
  let prompt_text := team_prompt_text specialist_reports
  match port prompt_text with
  | Except.ok content => (_sanitize_text content, [prompt_text])
  | Except.error e => (chars "Error generating final diagnosis: " ++ e, [prompt_text])

/-- The `asyncio.gather` over the specialist workers in `run_diagnosis`:
results are collected in input order whatever the completion order; an
uncaught worker exception (the registry `KeyError`) propagates. -/
def gatherSpecialists (port : Port) (medical_report : Str) :
    List Str → Option (List (AnalyzerResult × Str))
  | [] => some []
  | name :: rest =>
    match _run_specialist port name medical_report,
        gatherSpecialists port medical_report rest with
    | some pr, some prs => some (pr :: prs)
    | _, _ => none

/-- The value `run_diagnosis` returns: the dict with `specialist_reports`
and `final_diagnosis`. -/
structure DiagnosisResult where
  specialist_reports : List AnalyzerResult
  final_diagnosis : Str
deriving DecidableEq, Repr

/-- The two ways `run_diagnosis` can raise: `ThreadPoolExecutor(max_workers=0)`
refuses an empty specialist list, and an unregistered name raises `KeyError`
inside its worker, which `asyncio.gather` re-raises. -/
inductive EngineError
  | emptySpecialists
  | unknownSpecialist
deriving DecidableEq, Repr

/-- `run_diagnosis` in `agent_engine.py`; alongside the result, the list of
directives the run sent to the Port. -/
def run_diagnosis (port : Port) (medical_report : Str) (specialists : List Str) :
    Except EngineError (DiagnosisResult × List Str) :=
  if specialists = [] then Except.error EngineError.emptySpecialists
  else
    match gatherSpecialists port medical_report specialists with
    | none => Except.error EngineError.unknownSpecialist
    | some pairs =>
      let specialist_reports := pairs.map (fun p => p.1)
      let td := _run_team_diagnosis port specialist_reports
      Except.ok (⟨specialist_reports, td.1⟩, pairs.map (fun p => p.2) ++ td.2)

/-- A parsed JSON value: what `json.loads` can hand to the post-processing of
`auto_select_specialists`. -/
inductive PyVal
  | pstr (s : Str)
  | pnum (n : Int)
  | pbool (b : Bool)
  | pnull
  | plist (elems : List PyVal)
  | pdict (entries : List (Str × PyVal))

/-- Python iteration over a parsed JSON value, as the list comprehension
`[s for s in selected ...]` sees it: a list yields its elements, a string its
one-character substrings, an object its keys; a number, boolean or null
raises `TypeError` (`none`), which the enclosing `except` catches. -/
def pyIterate : PyVal → Option (List PyVal)
  | PyVal.plist elems => some elems
  | PyVal.pstr s => some (s.map (fun c => PyVal.pstr [c]))
  | PyVal.pdict entries => some (entries.map (fun e => PyVal.pstr e.1))
  | _ => none

/-- The fixed fallback of `auto_select_specialists`. -/
def FALLBACK_SPECIALISTS : List Str :=
  [chars "Cardiologist", chars "Psychologist", chars "Pulmonologist"]

def GENERAL_PRACTITIONER : Str := chars "General Practitioner"

/-- Line 74 of `specialist_selector.py`:
`valid = [s for s in selected if s in AVAILABLE_SPECIALISTS]` (a non-string
element never equals a registry name, so only strings survive). -/
def selector_valid (selected : List PyVal) : List Str :=
  selected.filterMap (fun v =>
    match v with
    | PyVal.pstr s => if s ∈ AVAILABLE_SPECIALISTS then some s else none
    | _ => none)

/-- Lines 77..79 of `specialist_selector.py`: when fewer than two valid names
remain, append General Practitioner unless already present. -/
def selector_padded (valid : List Str) : List Str :=
  if valid.length < 2 then
    if GENERAL_PRACTITIONER ∈ valid then valid
    else valid ++ [GENERAL_PRACTITIONER]
  else valid

/-- Lines 74..81 of `specialist_selector.py`: keep registry names, pad with
the default when fewer than two remain, cap at five (`valid[:5]`). -/
def selector_postprocess (selected : List PyVal) : List Str :=
  (selector_padded (selector_valid selected)).take 5

/-- `auto_select_specialists` in `specialist_selector.py`, from the parsed
model response on: `resp` combines the model call and `json.loads`
(`Except.error` when the call raised or the stripped text was not valid
JSON); any such failure lands in the `except` clause and yields the fixed
fallback triple. -/
def auto_select_specialists (resp : Except Str PyVal) : List Str :=
  match resp with
  | Except.error _ => FALLBACK_SPECIALISTS
  | Except.ok parsed =>
    match pyIterate parsed with
    | none => FALLBACK_SPECIALISTS
    | some selected => selector_postprocess selected

/-- The spec's own wording of the Auto-Selector post-processing policy, for
comparison with the code: (1) drop any name not present in the Registry;
(2) if fewer than 2 valid names remain, append the default analyzer if not
already present; (3) truncate to at most 5 names, preserving order. -/
def spec_postprocess (names : List Str) : List Str :=
  let step1 := names.filter (fun n => n ∈ AVAILABLE_SPECIALISTS)
  let step2 :=
    if step1.length < 2 ∧ GENERAL_PRACTITIONER ∉ step1 then
      step1 ++ [GENERAL_PRACTITIONER]
    else step1
  step2.take 5

/-- The failures `run_diagnosis_endpoint` can surface for a validated run:
the HTTP 400 for unknown specialist names, or an engine exception escaping
uncaught (shown below to be unreachable once validation passes). -/
inductive EndpointError
  | invalidSpecialists (invalid : List Str)
  | engineFailure (e : EngineError)
deriving DecidableEq, Repr

/-- Lines 95..103 of `routes/diagnosis.py`: reject the request with HTTP 400
when any requested name is outside the registry
(`invalid = [s for s in selected_specialists if s not in AVAILABLE_SPECIALISTS]`),
and only otherwise start the engine. -/
def endpoint_validate_and_run (port : Port) (report_content : Str)
    (specialists : List Str) : Except EndpointError (DiagnosisResult × List Str) :=
  let invalid := specialists.filter (fun s => ¬ s ∈ AVAILABLE_SPECIALISTS)
  if invalid ≠ [] then Except.error (EndpointError.invalidSpecialists invalid)
  else
    match run_diagnosis port report_content specialists with
    | Except.ok r => Except.ok r
    | Except.error e => Except.error (EndpointError.engineFailure e)

/-- The orchestration part of `run_diagnosis_endpoint` in
`routes/diagnosis.py` (lines 91..103): auto-select when the caller supplied
no subset (`if not selected_specialists` is true for both `None` and `[]`),
then validate and run.  `selector_resp` is the Auto-Selector's parsed model
response. -/
def run_diagnosis_endpoint (port : Port) (report_content : Str)
    (selected_specialists : Option (List Str)) (selector_resp : Except Str PyVal) :
    Except EndpointError (DiagnosisResult × List Str) :=
  endpoint_validate_and_run port report_content
    (match selected_specialists with
     | none => auto_select_specialists selector_resp
     | some l => if l = [] then auto_select_specialists selector_resp else l)

/-- A Port stub whose every call succeeds with a fixed text. -/
def allOkPort : Port := fun _ => Except.ok (chars "All findings within normal limits.")

/-- A Port stub whose every call raises. -/
def allFailPort : Port := fun _ => Except.error (chars "connection reset by peer")

/-- A Port stub that fails exactly the Psychologist worker's directive for the
report "test report" and answers every other directive. -/
def psychFailPort : Port := fun d =>
  if d = specialist_directive (chars "Psychologist") (chars "test report")
  then Except.error (chars "boom")
  else Except.ok (chars "fine")

/-- A Port stub that raises with a curly-quote character in the message. -/
def unicodeFailPort : Port := fun _ => Except.error (chars "‘timeout’")

theorem mem_replaceFuel {c : Char} {pat rep : Str} :
    ∀ fuel s, c ∈ replaceFuel pat rep fuel s → c ∈ s ∨ c ∈ rep := by
  intro fuel
  induction fuel with
  | zero =>
    intro s h
    cases s with
    | nil => simp [replaceFuel] at h
    | cons a as => exact Or.inl (by simpa [replaceFuel] using h)
  | succ n ih =>
    intro s h
    cases s with
    | nil => simp [replaceFuel] at h
    | cons a as =>
      simp only [replaceFuel] at h
      by_cases hp : pat.isPrefixOf (a :: as)
      · rw [if_pos hp] at h
        rcases List.mem_append.mp h with h1 | h2
        · exact Or.inr h1
        · rcases ih _ h2 with h3 | h4
          · exact Or.inl (List.mem_cons_of_mem _ (List.drop_subset _ _ h3))
          · exact Or.inr h4
      · rw [if_neg hp] at h
        rcases List.mem_cons.mp h with h1 | h2
        · exact Or.inl (h1 ▸ List.mem_cons_self _ _)
        · rcases ih _ h2 with h3 | h4
          · exact Or.inl (List.mem_cons_of_mem _ h3)
          · exact Or.inr h4

theorem mem_pyreplace {c : Char} {s pat rep : Str}
    (h : c ∈ pyreplace s pat rep) : c ∈ s ∨ c ∈ rep :=
  mem_replaceFuel _ _ h

theorem not_mem_pyreplace {c : Char} {s pat rep : Str}
    (hs : c ∉ s) (hr : c ∉ rep) : c ∉ pyreplace s pat rep := by
  intro h
  rcases mem_pyreplace h with h1 | h2
  · exact hs h1
  · exact hr h2

theorem not_mem_replaceFuel_single {c : Char} {rep : Str} (hr : c ∉ rep) :
    ∀ fuel s, s.length ≤ fuel → c ∉ replaceFuel [c] rep fuel s := by
  intro fuel
  induction fuel with
  | zero =>
    intro s hs
    have : s = [] := List.eq_nil_of_length_eq_zero (Nat.le_zero.mp hs)
    subst this
    simp [replaceFuel]
  | succ n ih =>
    intro s hs
    cases s with
    | nil => simp [replaceFuel]
    | cons a as =>
      simp only [replaceFuel]
      by_cases hp : List.isPrefixOf [c] (a :: as)
      · rw [if_pos hp]
        intro hmem
        rcases List.mem_append.mp hmem with h1 | h2
        · exact hr h1
        · have has : as.length ≤ n := by
            simpa using Nat.succ_le_succ_iff.mp (by simpa using hs)
          exact ih as has (by simpa using h2)
      · rw [if_neg hp]
        have hne : a ≠ c := by
          intro h
          subst h
          simp [List.isPrefixOf] at hp
        intro hmem
        rcases List.mem_cons.mp hmem with h1 | h2
        · exact hne h1.symm
        · have has : as.length ≤ n := by
            simpa using Nat.succ_le_succ_iff.mp (by simpa using hs)
          exact ih as has h2

theorem not_mem_pyreplace_single {c : Char} {rep s : Str} (hr : c ∉ rep) :
    c ∉ pyreplace s [c] rep :=
  not_mem_replaceFuel_single hr s.length s (Nat.le_refl _)

theorem replaceFuel_no_occurrence {p : Char} {pt rep : Str} :
    ∀ fuel s, p ∉ s → replaceFuel (p :: pt) rep fuel s = s := by
  intro fuel
  induction fuel with
  | zero =>
    intro s _
    cases s <;> simp [replaceFuel]
  | succ n ih =>
    intro s hs
    cases s with
    | nil => simp [replaceFuel]
    | cons a as =>
      have hne : ¬ (p :: pt).isPrefixOf (a :: as) := by
        simp only [List.isPrefixOf, Bool.and_eq_true, beq_iff_eq]
        intro h
        exact hs (h.1 ▸ List.mem_cons_self _ _)
      simp only [replaceFuel, if_neg hne]
      rw [ih as (fun h => hs (List.mem_cons_of_mem _ h))]

theorem pyreplace_no_occurrence {p : Char} {pt rep s : Str} (hs : p ∉ s) :
    pyreplace s (p :: pt) rep = s :=
  replaceFuel_no_occurrence s.length s hs

theorem replaceFuel_fuel_irrel {pat rep : Str} :
    ∀ f1 f2 s, s.length ≤ f1 → s.length ≤ f2 →
      replaceFuel pat rep f1 s = replaceFuel pat rep f2 s := by
  intro f1
  induction f1 with
  | zero =>
    intro f2 s h1 _
    have : s = [] := List.eq_nil_of_length_eq_zero (Nat.le_zero.mp h1)
    subst this
    cases f2 <;> simp [replaceFuel]
  | succ n ih =>
    intro f2 s h1 h2
    cases s with
    | nil => cases f2 <;> simp [replaceFuel]
    | cons a as =>
      cases f2 with
      | zero => simp at h2
      | succ m =>
        have has1 : as.length ≤ n := Nat.succ_le_succ_iff.mp (by simpa using h1)
        have has2 : as.length ≤ m := Nat.succ_le_succ_iff.mp (by simpa using h2)
        simp only [replaceFuel]
        by_cases hp : pat.isPrefixOf (a :: as)
        · rw [if_pos hp, if_pos hp]
          have hd1 : (as.drop (pat.length - 1)).length ≤ n :=
            Nat.le_trans (by simp) has1
          have hd2 : (as.drop (pat.length - 1)).length ≤ m :=
            Nat.le_trans (by simp) has2
          rw [ih _ _ hd1 hd2]
        · rw [if_neg hp, if_neg hp, ih _ _ has1 has2]

theorem pyreplace_split {p : Char} {pt rep : Str} :
    ∀ A B : Str, p ∉ A →
      pyreplace (A ++ (p :: pt) ++ B) (p :: pt) rep
        = A ++ rep ++ pyreplace B (p :: pt) rep := by
  intro A
  induction A with
  | nil =>
    intro B _
    show replaceFuel (p :: pt) rep (((p :: pt) ++ B).length) ((p :: pt) ++ B) = _
    have hpre : (p :: pt).isPrefixOf ((p :: pt) ++ B) :=
      List.isPrefixOf_iff_prefix.mpr (List.prefix_append _ _)
    have hlen : ((p :: pt) ++ B).length = (pt ++ B).length + 1 := by
      simp [Nat.add_comm, Nat.add_assoc, Nat.add_left_comm]
    rw [hlen]
    have : (p :: pt) ++ B = p :: (pt ++ B) := by simp
    rw [this] at hpre ⊢
    simp only [replaceFuel, if_pos hpre]
    have hdrop : (pt ++ B).drop ((p :: pt).length - 1) = B := by
      simp [List.drop_left]
    rw [hdrop]
    have : replaceFuel (p :: pt) rep ((pt ++ B).length) B
        = replaceFuel (p :: pt) rep B.length B :=
      replaceFuel_fuel_irrel _ _ _ (by simp) (Nat.le_refl _)
    rw [this]
    rfl
  | cons a A ih =>
    intro B hA
    have hne : a ≠ p := fun h => hA (h ▸ List.mem_cons_self _ _)
    have hA' : p ∉ A := fun h => hA (List.mem_cons_of_mem _ h)
    have heq : (a :: A) ++ (p :: pt) ++ B = a :: (A ++ (p :: pt) ++ B) := by simp
    show replaceFuel (p :: pt) rep (((a :: A) ++ (p :: pt) ++ B).length)
        ((a :: A) ++ (p :: pt) ++ B) = _
    rw [heq]
    have hnp : ¬ (p :: pt).isPrefixOf (a :: (A ++ (p :: pt) ++ B)) := by
      simp only [List.isPrefixOf, Bool.and_eq_true, beq_iff_eq]
      intro h
      exact hne h.1.symm
    have hlen : (a :: (A ++ (p :: pt) ++ B)).length
        = (A ++ (p :: pt) ++ B).length + 1 := by simp
    rw [hlen]
    simp only [replaceFuel, if_neg hnp]
    have := ih B hA'
    show a :: replaceFuel (p :: pt) rep ((A ++ (p :: pt) ++ B).length) (A ++ (p :: pt) ++ B)
        = (a :: A) ++ rep ++ pyreplace B (p :: pt) rep
    rw [show replaceFuel (p :: pt) rep ((A ++ (p :: pt) ++ B).length) (A ++ (p :: pt) ++ B)
        = pyreplace (A ++ (p :: pt) ++ B) (p :: pt) rep from rfl, this]
    simp

theorem foldl_replace_preserved {c : Char} :
    ∀ ps : List (Str × Str), ∀ t, preservedBy c ps = true → c ∉ t →
      c ∉ ps.foldl (fun a p => pyreplace a p.1 p.2) t := by
  intro ps
  induction ps with
  | nil =>
    intro t _ ht
    simpa using ht
  | cons pr rest ih =>
    intro t hp ht
    rw [preservedBy, Bool.and_eq_true, decide_eq_true_eq] at hp
    exact ih _ hp.2 (not_mem_pyreplace ht hp.1)

theorem foldl_replace_eliminated {c : Char} :
    ∀ ps : List (Str × Str), ∀ t, eliminatedBy c ps = true →
      c ∉ ps.foldl (fun a p => pyreplace a p.1 p.2) t := by
  intro ps
  induction ps with
  | nil =>
    intro t h
    exact absurd h (by simp [eliminatedBy])
  | cons pr rest ih =>
    intro t h
    rw [eliminatedBy, Bool.or_eq_true, Bool.and_eq_true, Bool.and_eq_true,
      decide_eq_true_eq, decide_eq_true_eq] at h
    rcases h with ⟨⟨hpat, hrep⟩, hpres⟩ | h2
    · have hnm : c ∉ pyreplace t pr.1 pr.2 := by
        rw [hpat]
        exact not_mem_pyreplace_single hrep
      exact foldl_replace_preserved rest _ hpres hnm
    · exact ih _ h2

theorem sanitize_removes_mapped {t : Str} {c : Char}
    (hc : c ∈ mapped_unicode_chars) : c ∉ _sanitize_text t := by
  apply foldl_replace_eliminated
  fin_cases hc <;> decide

theorem team_template_split :
    TEAM_PROMPT_TEMPLATE = TEAM_PROMPT_PRE ++ SECTION_PLACEHOLDER ++ chars "\n" := rfl

theorem placeholder_cons :
    SECTION_PLACEHOLDER = '\x7b' :: chars "specialist_reports_section\x7d" := by
  decide

set_option maxRecDepth 12000 in
theorem brace_not_mem_pre : '\x7b' ∉ TEAM_PROMPT_PRE := by decide

theorem team_prompt_text_eq (rs : List AnalyzerResult) :
    team_prompt_text rs = TEAM_PROMPT_PRE ++ reports_section rs ++ chars "\n" := by
  unfold team_prompt_text
  rw [team_template_split, placeholder_cons,
    pyreplace_split _ _ brace_not_mem_pre,
    pyreplace_no_occurrence (by decide)]

theorem reports_section_eq_aux :
    ∀ (rs : List AnalyzerResult) (acc : Str),
      rs.foldl (fun a r => a ++ report_block r) acc = acc ++ joinBlocks rs := by
  intro rs
  induction rs with
  | nil =>
    intro acc
    simp [joinBlocks]
  | cons r rest ih =>
    intro acc
    simp [List.foldl_cons, ih, joinBlocks]

theorem reports_section_eq (rs : List AnalyzerResult) :
    reports_section rs = joinBlocks rs := by
  unfold reports_section
  rw [reports_section_eq_aux]
  simp

theorem containsSeq_prepend {t : Str} {ps : List Str} (s : Str)
    (h : containsSeq t ps) : containsSeq (s ++ t) ps := by
  cases ps with
  | nil => trivial
  | cons p rest =>
    obtain ⟨a, b, heq, hrest⟩ := h
    exact ⟨s ++ a, b, by rw [heq]; simp, hrest⟩

theorem containsSeq_joinBlocks :
    ∀ (rs : List AnalyzerResult) (tail : Str),
      containsSeq (joinBlocks rs ++ tail) (embedded_parts rs) := by
  intro rs
  induction rs with
  | nil =>
    intro tail
    trivial
  | cons r rest ih =>
    intro tail
    refine ⟨chars "\n",
      chars " Report:\n" ++ (escapeBraces r.report_content
        ++ (chars "\n" ++ (joinBlocks rest ++ tail))), ?_, ?_⟩
    · simp [joinBlocks, report_block, embedded_parts]
    · refine ⟨chars " Report:\n", chars "\n" ++ (joinBlocks rest ++ tail), ?_, ?_⟩
      · simp
      · exact containsSeq_prepend _ (ih tail)

theorem mem_available_iff {name : Str} :
    name ∈ AVAILABLE_SPECIALISTS ↔ (lookupSpecialist name).isSome := by
  unfold AVAILABLE_SPECIALISTS lookupSpecialist
  rw [Option.isSome_map']
  constructor
  · intro h
    obtain ⟨p, hp, hpe⟩ := List.mem_map.mp h
    rw [List.find?_isSome]
    exact ⟨p, hp, by simp [hpe]⟩
  · intro h
    rw [List.find?_isSome] at h
    obtain ⟨p, hp, hpe⟩ := h
    exact List.mem_map.mpr ⟨p, hp, by simpa using hpe⟩

theorem _run_specialist_valid {port : Port} {name report : Str}
    (h : (lookupSpecialist name).isSome) :
    _run_specialist port name report = some (worker_outcome port report name) := by
  obtain ⟨spec, hspec⟩ := Option.isSome_iff_exists.mp h
  simp only [_run_specialist, worker_outcome, specialist_directive, hspec]
  cases hp : port (pyreplace spec.prompt MEDICAL_REPORT_PLACEHOLDER report) <;>
    simp [hp]

theorem gather_eq_map {port : Port} {report : Str} :
    ∀ names : List Str, (∀ n ∈ names, (lookupSpecialist n).isSome) →
      gatherSpecialists port report names
        = some (names.map (worker_outcome port report)) := by
  intro names
  induction names with
  | nil =>
    intro _
    simp [gatherSpecialists]
  | cons n rest ih =>
    intro h
    have h1 := h n (List.mem_cons_self _ _)
    have h2 : ∀ m ∈ rest, (lookupSpecialist m).isSome :=
      fun m hm => h m (List.mem_cons_of_mem _ hm)
    simp [gatherSpecialists, _run_specialist_valid h1, ih h2]

theorem run_diagnosis_valid {port : Port} {report : Str} {names : List Str}
    (hne : names ≠ [])
    (hval : ∀ n ∈ names, (lookupSpecialist n).isSome) :
    run_diagnosis port report names =
      Except.ok
        (⟨(names.map (worker_outcome port report)).map (fun p => p.1),
          (_run_team_diagnosis port
            ((names.map (worker_outcome port report)).map (fun p => p.1))).1⟩,
          (names.map (worker_outcome port report)).map (fun p => p.2)
            ++ (_run_team_diagnosis port
              ((names.map (worker_outcome port report)).map (fun p => p.1))).2) := by
  unfold run_diagnosis
  rw [if_neg hne, gather_eq_map names hval]

theorem selector_valid_strings (xs : List Str) :
    selector_valid (xs.map PyVal.pstr)
      = xs.filter (fun n => n ∈ AVAILABLE_SPECIALISTS) := by
  induction xs with
  | nil => rfl
  | cons x rest ih =>
    by_cases hx : x ∈ AVAILABLE_SPECIALISTS <;>
      simp [selector_valid, List.filterMap_cons, List.filter_cons, hx,
        selector_valid] at ih ⊢ <;>
      exact ih

theorem selector_postprocess_strings (xs : List Str) :
    selector_postprocess (xs.map PyVal.pstr) = spec_postprocess xs := by
  unfold selector_postprocess spec_postprocess selector_padded
  rw [selector_valid_strings]
  by_cases h1 : (xs.filter (fun n => n ∈ AVAILABLE_SPECIALISTS)).length < 2 <;>
    by_cases h2 : GENERAL_PRACTITIONER ∈ xs.filter (fun n => n ∈ AVAILABLE_SPECIALISTS) <;>
      simp [h1, h2]

theorem selector_valid_mem {selected : List PyVal} :
    ∀ n ∈ selector_valid selected, n ∈ AVAILABLE_SPECIALISTS := by
  intro n hn
  obtain ⟨v, _, hv⟩ := List.mem_filterMap.mp hn
  cases v <;> simp at hv
  rcases hv with ⟨hmem, heq⟩
  exact heq ▸ hmem

theorem selector_padded_mem {valid : List Str}
    (h : ∀ m ∈ valid, m ∈ AVAILABLE_SPECIALISTS) :
    ∀ n ∈ selector_padded valid, n ∈ AVAILABLE_SPECIALISTS := by
  intro n hn
  unfold selector_padded at hn
  split_ifs at hn with h1 h2
  · exact h n hn
  · rcases List.mem_append.mp hn with h3 | h4
    · exact h n h3
    · simp at h4
      rw [h4]
      decide
  · exact h n hn

theorem selector_padded_ne_nil (valid : List Str) : selector_padded valid ≠ [] := by
  unfold selector_padded
  split_ifs with h1 h2
  · exact fun h => by simp [h] at h2
  · simp
  · intro h
    rw [h] at h1
    simp at h1

theorem selector_postprocess_mem {selected : List PyVal} :
    ∀ n ∈ selector_postprocess selected, n ∈ AVAILABLE_SPECIALISTS :=
  fun n hn =>
    selector_padded_mem selector_valid_mem n (List.take_subset _ _ hn)

theorem selector_postprocess_length_pos (selected : List PyVal) :
    0 < (selector_postprocess selected).length := by
  unfold selector_postprocess
  rw [List.length_take]
  have := selector_padded_ne_nil (selector_valid selected)
  have hpos : 0 < (selector_padded (selector_valid selected)).length :=
    List.length_pos.mpr this
  omega

theorem selector_postprocess_length_le (selected : List PyVal) :
    (selector_postprocess selected).length ≤ 5 := by
  unfold selector_postprocess
  rw [List.length_take]
  omega

theorem auto_select_error (e : Str) :
    auto_select_specialists (Except.error e) = FALLBACK_SPECIALISTS := rfl

theorem auto_select_ok (parsed : PyVal) :
    auto_select_specialists (Except.ok parsed)
      = match pyIterate parsed with
        | none => FALLBACK_SPECIALISTS
        | some selected => selector_postprocess selected := rfl

theorem auto_select_mem {resp : Except Str PyVal} :
    ∀ n ∈ auto_select_specialists resp, n ∈ AVAILABLE_SPECIALISTS := by
  intro n hn
  rcases resp with e | parsed
  · rw [auto_select_error] at hn
    fin_cases hn <;> decide
  · rw [auto_select_ok] at hn
    rcases hi : pyIterate parsed with _ | selected <;> rw [hi] at hn
    · fin_cases hn <;> decide
    · exact selector_postprocess_mem n hn

theorem auto_select_length_pos (resp : Except Str PyVal) :
    0 < (auto_select_specialists resp).length := by
  rcases resp with e | parsed
  · rw [auto_select_error]
    decide
  · rw [auto_select_ok]
    rcases hi : pyIterate parsed with _ | selected
    · decide
    · exact selector_postprocess_length_pos selected

theorem auto_select_length_le (resp : Except Str PyVal) :
    (auto_select_specialists resp).length ≤ 5 := by
  rcases resp with e | parsed
  · rw [auto_select_error]
    decide
  · rw [auto_select_ok]
    rcases hi : pyIterate parsed with _ | selected
    · decide
    · exact selector_postprocess_length_le selected

theorem worker_name (port : Port) (report n : Str) :
    ((worker_outcome port report n).1).specialist_name = n := by
  unfold worker_outcome
  cases port (specialist_directive n report) <;> rfl

theorem worker_outcome_ok {port : Port} {report n t : Str}
    (h : port (specialist_directive n report) = Except.ok t) :
    worker_outcome port report n
      = (⟨n, _sanitize_text t⟩, specialist_directive n report) := by
  unfold worker_outcome
  rw [h]

theorem worker_outcome_error {port : Port} {report n e : Str}
    (h : port (specialist_directive n report) = Except.error e) :
    worker_outcome port report n
      = (⟨n, chars "Error: Could not generate report. " ++ e⟩,
          specialist_directive n report) := by
  unfold worker_outcome
  rw [h]

theorem run_team_ok {port : Port} {rs : List AnalyzerResult} {t : Str}
    (h : port (team_prompt_text rs) = Except.ok t) :
    _run_team_diagnosis port rs = (_sanitize_text t, [team_prompt_text rs]) := by
  unfold _run_team_diagnosis
  simp only []
  rw [h]

theorem run_team_error {port : Port} {rs : List AnalyzerResult} {e : Str}
    (h : port (team_prompt_text rs) = Except.error e) :
    _run_team_diagnosis port rs
      = (chars "Error generating final diagnosis: " ++ e, [team_prompt_text rs]) := by
  unfold _run_team_diagnosis
  simp only []
  rw [h]

theorem gather_none {port : Port} {report : Str} :
    ∀ names : List Str, (∃ n ∈ names, lookupSpecialist n = none) →
      gatherSpecialists port report names = none := by
  intro names
  induction names with
  | nil =>
    rintro ⟨n, hn, _⟩
    cases hn
  | cons m rest ih =>
    rintro ⟨n, hn, hl⟩
    rcases List.mem_cons.mp hn with h1 | h2
    · subst h1
      simp [gatherSpecialists, _run_specialist, hl]
    · have hrest := ih ⟨n, h2, hl⟩
      rw [gatherSpecialists, hrest]
      cases _run_specialist port m report <;> rfl

/-- C1: for every non-empty list of requested analyzer names drawn from the
Registry and any per-worker Port outcome, `run_diagnosis` succeeds and its
`specialist_reports` sequence has exactly one entry per requested name, with
position `i` holding the result of the `i`-th requested analyzer. -/
theorem c1_dispatch_completeness_order (port : Port) (medical_report : Str)
    (names : List Str) (hne : names ≠ [])
    (hval : ∀ n ∈ names, n ∈ AVAILABLE_SPECIALISTS) :
    ∃ result trace,
      run_diagnosis port medical_report names = Except.ok (result, trace)
        ∧ result.specialist_reports.length = names.length
        ∧ ∀ i (hi : i < names.length) (hi2 : i < result.specialist_reports.length),
            (result.specialist_reports.get ⟨i, hi2⟩).specialist_name
              = names.get ⟨i, hi⟩ := by
  have hval2 : ∀ n ∈ names, (lookupSpecialist n).isSome :=
    fun n hn => mem_available_iff.mp (hval n hn)
  refine ⟨_, _, run_diagnosis_valid hne hval2, by simp, ?_⟩
  intro i hi hi2
  simp [List.getElem_map, worker_name]

/-- Witness for C1: a concrete two-analyzer request against an all-success
Port. -/
theorem c1_dispatch_completeness_order_witness :
    (([chars "Cardiologist", chars "Neurologist"] : List Str) ≠ [])
  ∧ (∀ n ∈ ([chars "Cardiologist", chars "Neurologist"] : List Str),
      n ∈ AVAILABLE_SPECIALISTS)
  ∧ ∃ result trace,
      run_diagnosis allOkPort (chars "chest pain")
          [chars "Cardiologist", chars "Neurologist"] = Except.ok (result, trace)
        ∧ result.specialist_reports.length
            = ([chars "Cardiologist", chars "Neurologist"] : List Str).length
        ∧ ∀ i (hi : i < ([chars "Cardiologist", chars "Neurologist"] : List Str).length)
            (hi2 : i < result.specialist_reports.length),
            (result.specialist_reports.get ⟨i, hi2⟩).specialist_name
              = ([chars "Cardiologist", chars "Neurologist"] : List Str).get ⟨i, hi⟩ :=
  ⟨by decide, by decide,
    c1_dispatch_completeness_order allOkPort (chars "chest pain") _
      (by decide) (by decide)⟩

/-- C2: when the Port fails the `i`-th analyzer's worker call, `run_diagnosis`
still succeeds, the `i`-th entry is flagged by the textual placeholder
"Error: Could not generate report. " followed by the cause, and every sibling
whose call succeeded holds its genuine (sanitized) output. -/
theorem c2_worker_failure_isolated (port : Port) (medical_report : Str)
    (names : List Str) (i : Nat) (hi : i < names.length) (e : Str)
    (hne : names ≠ [])
    (hval : ∀ n ∈ names, n ∈ AVAILABLE_SPECIALISTS)
    (hfail : port (specialist_directive (names.get ⟨i, hi⟩) medical_report)
      = Except.error e) :
    ∃ result trace,
      run_diagnosis port medical_report names = Except.ok (result, trace)
        ∧ result.specialist_reports.length = names.length
        ∧ (∀ hi2 : i < result.specialist_reports.length,
            result.specialist_reports.get ⟨i, hi2⟩
              = ⟨names.get ⟨i, hi⟩,
                  chars "Error: Could not generate report. " ++ e⟩)
        ∧ ∀ j (hj : j < names.length) (t : Str),
            port (specialist_directive (names.get ⟨j, hj⟩) medical_report)
              = Except.ok t →
            ∀ hj2 : j < result.specialist_reports.length,
              result.specialist_reports.get ⟨j, hj2⟩
                = ⟨names.get ⟨j, hj⟩, _sanitize_text t⟩ := by
  have hval2 : ∀ n ∈ names, (lookupSpecialist n).isSome :=
    fun n hn => mem_available_iff.mp (hval n hn)
  refine ⟨_, _, run_diagnosis_valid hne hval2, by simp, ?_, ?_⟩
  · intro hi2
    simp only [List.get_eq_getElem] at hfail
    simp only [List.get_eq_getElem, List.getElem_map]
    rw [worker_outcome_error hfail]
  · intro j hj t hok hj2
    simp only [List.get_eq_getElem] at hok
    simp only [List.get_eq_getElem, List.getElem_map]
    rw [worker_outcome_ok hok]

/-- Witness for C2: with two analyzers requested, a Port that fails exactly
the Psychologist's directive yields the placeholder at position 1 while the
Cardiologist entry keeps genuine output. -/
theorem c2_worker_failure_isolated_witness :
    (([chars "Cardiologist", chars "Psychologist"] : List Str) ≠ [])
  ∧ (∀ n ∈ ([chars "Cardiologist", chars "Psychologist"] : List Str),
      n ∈ AVAILABLE_SPECIALISTS)
  ∧ psychFailPort (specialist_directive (chars "Psychologist") (chars "test report"))
      = Except.error (chars "boom")
  ∧ ∃ result trace,
      run_diagnosis psychFailPort (chars "test report")
          [chars "Cardiologist", chars "Psychologist"] = Except.ok (result, trace)
        ∧ result.specialist_reports.length
            = ([chars "Cardiologist", chars "Psychologist"] : List Str).length
        ∧ (∀ hi2 : 1 < result.specialist_reports.length,
            result.specialist_reports.get ⟨1, hi2⟩
              = ⟨chars "Psychologist",
                  chars "Error: Could not generate report. " ++ chars "boom"⟩)
        ∧ ∀ j (hj : j < ([chars "Cardiologist", chars "Psychologist"] : List Str).length)
            (t : Str),
            psychFailPort (specialist_directive
              (([chars "Cardiologist", chars "Psychologist"] : List Str).get ⟨j, hj⟩)
              (chars "test report")) = Except.ok t →
            ∀ hj2 : j < result.specialist_reports.length,
              result.specialist_reports.get ⟨j, hj2⟩
                = ⟨([chars "Cardiologist", chars "Psychologist"] : List Str).get ⟨j, hj⟩,
                    _sanitize_text t⟩ :=
  ⟨by decide, by decide, by simp [psychFailPort],
    c2_worker_failure_isolated psychFailPort (chars "test report")
      [chars "Cardiologist", chars "Psychologist"] 1 (by decide) (chars "boom")
      (by decide) (by decide) (by simp [psychFailPort])⟩

/-- C3: if the single synthesis call fails, the orchestration run still
returns normally: the final report is the error-flagged text
"Error generating final diagnosis: " plus the cause, and the complete
ordered sequence of analyzer results (one per requested name, in request
order) is returned unchanged. -/
theorem c3_synthesis_failure_graceful (port : Port) (medical_report : Str)
    (names : List Str) (e : Str) (hne : names ≠ [])
    (hval : ∀ n ∈ names, n ∈ AVAILABLE_SPECIALISTS) :
    ∃ pairs, gatherSpecialists port medical_report names = some pairs
      ∧ (pairs.map (fun p => p.1)).map (fun r => r.specialist_name) = names
      ∧ (port (team_prompt_text (pairs.map (fun p => p.1))) = Except.error e →
          run_diagnosis port medical_report names =
            Except.ok
              (⟨pairs.map (fun p => p.1),
                  chars "Error generating final diagnosis: " ++ e⟩,
                pairs.map (fun p => p.2)
                  ++ [team_prompt_text (pairs.map (fun p => p.1))])) := by
  have hval2 : ∀ n ∈ names, (lookupSpecialist n).isSome :=
    fun n hn => mem_available_iff.mp (hval n hn)
  refine ⟨names.map (worker_outcome port medical_report),
    gather_eq_map names hval2, ?_, ?_⟩
  · simp [List.map_map, Function.comp_def, worker_name]
  · intro hfail
    rw [run_diagnosis_valid hne hval2, run_team_error hfail]

/-- Witness for C3: one requested analyzer against a Port that fails every
call, so the synthesis call fails too. -/
theorem c3_synthesis_failure_graceful_witness :
    (([chars "Cardiologist"] : List Str) ≠ [])
  ∧ (∀ n ∈ ([chars "Cardiologist"] : List Str), n ∈ AVAILABLE_SPECIALISTS)
  ∧ ∃ pairs, gatherSpecialists allFailPort (chars "r") [chars "Cardiologist"] = some pairs
      ∧ (pairs.map (fun p => p.1)).map (fun r => r.specialist_name)
          = ([chars "Cardiologist"] : List Str)
      ∧ (allFailPort (team_prompt_text (pairs.map (fun p => p.1)))
            = Except.error (chars "connection reset by peer") →
          run_diagnosis allFailPort (chars "r") [chars "Cardiologist"] =
            Except.ok
              (⟨pairs.map (fun p => p.1),
                  chars "Error generating final diagnosis: "
                    ++ chars "connection reset by peer"⟩,
                pairs.map (fun p => p.2)
                  ++ [team_prompt_text (pairs.map (fun p => p.1))])) :=
  ⟨by decide, by decide,
    c3_synthesis_failure_graceful allFailPort (chars "r") [chars "Cardiologist"]
      (chars "connection reset by peer") (by decide) (by decide)⟩

theorem validate_run_invalid {port : Port} {report : Str} {specialists : List Str}
    (h : specialists.filter (fun s => ¬ s ∈ AVAILABLE_SPECIALISTS) ≠ []) :
    endpoint_validate_and_run port report specialists
      = Except.error (EndpointError.invalidSpecialists
          (specialists.filter (fun s => ¬ s ∈ AVAILABLE_SPECIALISTS))) := by
  unfold endpoint_validate_and_run
  simp only []
  rw [if_pos h]

theorem validate_run_valid {port : Port} {report : Str} {specialists : List Str}
    (hne : specialists ≠ [])
    (hval : ∀ n ∈ specialists, n ∈ AVAILABLE_SPECIALISTS) :
    ∃ r, endpoint_validate_and_run port report specialists = Except.ok r := by
  have hfil : specialists.filter (fun s => ¬ s ∈ AVAILABLE_SPECIALISTS) = [] := by
    rw [List.filter_eq_nil_iff]
    intro a ha
    simp [hval a ha]
  have hval2 : ∀ n ∈ specialists, (lookupSpecialist n).isSome :=
    fun n hn => mem_available_iff.mp (hval n hn)
  have heq : endpoint_validate_and_run port report specialists
      = match run_diagnosis port report specialists with
        | Except.ok r => Except.ok r
        | Except.error e => Except.error (EndpointError.engineFailure e) := by
    unfold endpoint_validate_and_run
    simp only []
    rw [if_neg (not_not_intro hfil)]
  rw [heq, run_diagnosis_valid hne hval2]
  exact ⟨_, rfl⟩

theorem endpoint_some_of_ne {port : Port} {report : Str} {l : List Str}
    {selResp : Except Str PyVal} (hlne : l ≠ []) :
    run_diagnosis_endpoint port report (some l) selResp
      = endpoint_validate_and_run port report l := by
  unfold run_diagnosis_endpoint
  simp only []
  rw [if_neg hlne]

/-- C4: the dispatch call fails exactly when the requested job set is empty or
holds a name outside the Registry; at the endpoint, a request naming an
unknown analyzer is rejected identically for every Port and report — so
before any analyzer work can start — and this rejection is the only failure
the endpoint surfaces. -/
theorem c4_unknown_analyzer_rejection :
    (∀ (port : Port) (medical_report : Str) (names : List Str),
      (∃ r, run_diagnosis port medical_report names = Except.ok r)
        ↔ (names ≠ [] ∧ ∀ n ∈ names, n ∈ AVAILABLE_SPECIALISTS))
  ∧ (∀ (port port2 : Port) (report report2 : Str) (l : List Str)
        (selResp selResp2 : Except Str PyVal),
      (∃ n ∈ l, n ∉ AVAILABLE_SPECIALISTS) →
        run_diagnosis_endpoint port report (some l) selResp
          = Except.error (EndpointError.invalidSpecialists
              (l.filter (fun s => ¬ s ∈ AVAILABLE_SPECIALISTS)))
        ∧ run_diagnosis_endpoint port report (some l) selResp
          = run_diagnosis_endpoint port2 report2 (some l) selResp2)
  ∧ (∀ (port : Port) (report : Str) (sel : Option (List Str))
        (selResp : Except Str PyVal),
      (∃ r, run_diagnosis_endpoint port report sel selResp = Except.ok r)
        ∨ ∃ l, sel = some l ∧ ∃ n ∈ l, n ∉ AVAILABLE_SPECIALISTS) := by
  have auto_ok : ∀ (port : Port) (report : Str) (sr : Except Str PyVal),
      ∃ r, endpoint_validate_and_run port report (auto_select_specialists sr)
        = Except.ok r := by
    intro port report sr
    exact validate_run_valid
      (List.ne_nil_of_length_pos (auto_select_length_pos sr))
      auto_select_mem
  refine ⟨?_, ?_, ?_⟩
  · intro port medical_report names
    constructor
    · rintro ⟨r, hr⟩
      by_cases hnil : names = []
      · subst hnil
        rw [run_diagnosis, if_pos rfl] at hr
        cases hr
      · refine ⟨hnil, ?_⟩
        intro n hn
        by_contra hmem
        have hlook : lookupSpecialist n = none := by
          cases h : lookupSpecialist n with
          | none => rfl
          | some spec =>
            exact absurd (mem_available_iff.mpr (by simp [h])) hmem
        have hg : gatherSpecialists port medical_report names = none :=
          gather_none names ⟨n, hn, hlook⟩
        rw [run_diagnosis, if_neg hnil, hg] at hr
        cases hr
    · rintro ⟨hne, hval⟩
      exact ⟨_, run_diagnosis_valid hne
        (fun n hn => mem_available_iff.mp (hval n hn))⟩
  · rintro port port2 report report2 l selResp selResp2 ⟨n, hn, hmem⟩
    have hlne : l ≠ [] := by
      rintro rfl
      cases hn
    have hninv : n ∈ l.filter (fun s => ¬ s ∈ AVAILABLE_SPECIALISTS) :=
      List.mem_filter.mpr ⟨hn, by simpa using hmem⟩
    have hinv : l.filter (fun s => ¬ s ∈ AVAILABLE_SPECIALISTS) ≠ [] := by
      intro h
      rw [h] at hninv
      cases hninv
    rw [endpoint_some_of_ne hlne, endpoint_some_of_ne hlne,
      validate_run_invalid hinv, validate_run_invalid hinv]
    exact ⟨rfl, rfl⟩
  · intro port report sel selResp
    cases sel with
    | none =>
      left
      rw [run_diagnosis_endpoint]
      exact auto_ok port report selResp
    | some l =>
      by_cases hl : l = []
      · subst hl
        left
        rw [run_diagnosis_endpoint]
        simp only [if_pos rfl]
        exact auto_ok port report selResp
      · by_cases hall : ∀ n ∈ l, n ∈ AVAILABLE_SPECIALISTS
        · left
          rw [endpoint_some_of_ne hl]
          exact validate_run_valid hl hall
        · right
          push_neg at hall
          exact ⟨l, rfl, hall⟩

/-- Witness for C4: a request naming the unregistered "Dentist" is rejected
with the validation error, for an all-success Port. -/
theorem c4_unknown_analyzer_rejection_witness :
    (∃ n ∈ ([chars "Dentist"] : List Str), n ∉ AVAILABLE_SPECIALISTS)
  ∧ run_diagnosis_endpoint allOkPort (chars "r") (some [chars "Dentist"])
        (Except.error (chars "x"))
      = Except.error (EndpointError.invalidSpecialists
          (([chars "Dentist"] : List Str).filter
            (fun s => ¬ s ∈ AVAILABLE_SPECIALISTS))) :=
  ⟨by decide,
    (c4_unknown_analyzer_rejection.2.1 allOkPort allOkPort (chars "r") (chars "r")
      [chars "Dentist"] (Except.error (chars "x")) (Except.error (chars "x"))
      (by decide)).1⟩

/-- C5: the Aggregator sends exactly one directive to the Port, and that
directive embeds every analyzer's name and its brace-escaped result text, in
the order of the input sequence. -/
theorem c5_aggregator_single_ordered_directive (port : Port)
    (specialist_reports : List AnalyzerResult) :
    (_run_team_diagnosis port specialist_reports).2
        = [team_prompt_text specialist_reports]
      ∧ containsSeq (team_prompt_text specialist_reports)
          (embedded_parts specialist_reports) := by
  constructor
  · unfold _run_team_diagnosis
    simp only []
    cases port (team_prompt_text specialist_reports) <;> rfl
  · rw [team_prompt_text_eq, reports_section_eq, List.append_assoc]
    exact containsSeq_prepend _ (containsSeq_joinBlocks _ _)

/-- C6: the Auto-Selector post-processing is exactly drop-unknown, pad to two
with General Practitioner when absent, truncate to five; in particular
["Cardiologist"] yields ["Cardiologist", "General Practitioner"] and seven
valid names yield their first five in order. -/
theorem c6_selector_postprocess_policy :
    (∀ xs : List Str,
      auto_select_specialists (Except.ok (PyVal.plist (xs.map PyVal.pstr)))
        = spec_postprocess xs)
  ∧ auto_select_specialists
        (Except.ok (PyVal.plist [PyVal.pstr (chars "Cardiologist")]))
      = [chars "Cardiologist", chars "General Practitioner"]
  ∧ auto_select_specialists (Except.ok (PyVal.plist
        (([chars "Cardiologist", chars "Psychologist", chars "Pulmonologist",
           chars "Neurologist", chars "Endocrinologist", chars "Oncologist",
           chars "Dermatologist"] : List Str).map PyVal.pstr)))
      = [chars "Cardiologist", chars "Psychologist", chars "Pulmonologist",
         chars "Neurologist", chars "Endocrinologist"] := by
  refine ⟨?_, by decide, by decide⟩
  intro xs
  rw [auto_select_ok]
  exact selector_postprocess_strings xs

/-- C7 fails on the code: the parsed response
["General Practitioner", "General Practitioner"] is returned as a
two-element list with a duplicate and only one distinct name. -/
theorem c7_counterexample :
    auto_select_specialists (Except.ok (PyVal.plist
        [PyVal.pstr (chars "General Practitioner"),
         PyVal.pstr (chars "General Practitioner")]))
      = [chars "General Practitioner", chars "General Practitioner"]
  ∧ ¬ ([chars "General Practitioner", chars "General Practitioner"] : List Str).Nodup
  ∧ ([chars "General Practitioner", chars "General Practitioner"] : List Str).dedup.length
      = 1 :=
  ⟨by decide, by decide, by decide⟩

/-- C7 amended: the returned list always has between 1 and 5 entries, all
drawn from the Registry (never empty, never unknown); entries may repeat and
fewer than two distinct names may be returned. -/
theorem c7_selection_bounds_amended (resp : Except Str PyVal) :
    1 ≤ (auto_select_specialists resp).length
  ∧ (auto_select_specialists resp).length ≤ 5
  ∧ ∀ n ∈ auto_select_specialists resp, n ∈ AVAILABLE_SPECIALISTS :=
  ⟨auto_select_length_pos resp, auto_select_length_le resp, auto_select_mem⟩

/-- C8 fails on the code: the response "[1, 2]" parses as JSON but is not a
list of strings, yet the result is ["General Practitioner"], not the fixed
fallback triple. -/
theorem c8_counterexample :
    auto_select_specialists
        (Except.ok (PyVal.plist [PyVal.pnum 1, PyVal.pnum 2]))
      = [chars "General Practitioner"]
  ∧ ([chars "General Practitioner"] : List Str) ≠ FALLBACK_SPECIALISTS :=
  ⟨by decide, by decide⟩

/-- C8 amended: the fixed fallback triple is returned exactly when the model
call raised, the response was not valid JSON, or it parsed to a non-iterable
value (number, boolean, null); an iterable non-list-of-strings value goes
through post-processing instead.  Auto-selection never raises. -/
theorem c8_fallback_amended :
    (∀ e : Str, auto_select_specialists (Except.error e) = FALLBACK_SPECIALISTS)
  ∧ (∀ n : Int, auto_select_specialists (Except.ok (PyVal.pnum n))
      = FALLBACK_SPECIALISTS)
  ∧ (∀ b : Bool, auto_select_specialists (Except.ok (PyVal.pbool b))
      = FALLBACK_SPECIALISTS)
  ∧ auto_select_specialists (Except.ok PyVal.pnull) = FALLBACK_SPECIALISTS :=
  ⟨fun _ => rfl, fun _ => rfl, fun _ => rfl, rfl⟩

/-- C9 fails on the code: the follow-up chat call requests temperature 0.3,
not the most deterministic setting. -/
theorem c9_counterexample :
    chat_model_config.temperature = (0.3 : ℚ)
  ∧ chat_model_config.temperature ≠ 0 := by
  constructor
  · rfl
  · norm_num [chat_model_config]

/-- C9 amended: the specialist analysis calls, the synthesis call and the
selection call request temperature 0; the follow-up chat call requests
temperature 0.3. -/
theorem c9_temperature_amended :
    _get_model.temperature = 0
  ∧ selector_model_config.temperature = 0
  ∧ chat_model_config.temperature = (0.3 : ℚ) :=
  ⟨rfl, rfl, rfl⟩

/-- C10: every successful specialist report and successful final diagnosis is
the sanitized response text, and the sanitizer output never contains any of
the thirteen mapped unicode characters; the two failure placeholders embed
the raw cause text with no sanitization. -/
theorem c10_sanitization_coverage :
    (∀ (t : Str) (c : Char), c ∈ mapped_unicode_chars → c ∉ _sanitize_text t)
  ∧ (∀ (port : Port) (name report : Str),
      (lookupSpecialist name).isSome →
        (∀ t, port (specialist_directive name report) = Except.ok t →
          ∃ d, _run_specialist port name report
            = some (⟨name, _sanitize_text t⟩, d))
        ∧ (∀ e, port (specialist_directive name report) = Except.error e →
          ∃ d, _run_specialist port name report
            = some (⟨name, chars "Error: Could not generate report. " ++ e⟩, d)))
  ∧ (∀ (port : Port) (specialist_reports : List AnalyzerResult),
      (∀ t, port (team_prompt_text specialist_reports) = Except.ok t →
        (_run_team_diagnosis port specialist_reports).1 = _sanitize_text t)
      ∧ (∀ e, port (team_prompt_text specialist_reports) = Except.error e →
        (_run_team_diagnosis port specialist_reports).1
          = chars "Error generating final diagnosis: " ++ e)) := by
  refine ⟨fun t c hc => sanitize_removes_mapped hc, ?_, ?_⟩
  · intro port name report h
    constructor
    · intro t ht
      refine ⟨specialist_directive name report, ?_⟩
      rw [_run_specialist_valid h, worker_outcome_ok ht]
    · intro e he
      refine ⟨specialist_directive name report, ?_⟩
      rw [_run_specialist_valid h, worker_outcome_error he]
  · intro port specialist_reports
    constructor
    · intro t ht
      rw [run_team_ok ht]
    · intro e he
      rw [run_team_error he]

/-- Witness for C10: a successful Cardiologist call yields sanitized text,
and a Port failure with a curly-quote in the message yields the raw
unsanitized placeholder. -/
theorem c10_sanitization_coverage_witness :
    ((lookupSpecialist (chars "Cardiologist")).isSome = true)
  ∧ (allOkPort (specialist_directive (chars "Cardiologist") (chars "r"))
      = Except.ok (chars "All findings within normal limits."))
  ∧ (∃ d, _run_specialist allOkPort (chars "Cardiologist") (chars "r")
      = some (⟨chars "Cardiologist",
          _sanitize_text (chars "All findings within normal limits.")⟩, d))
  ∧ (unicodeFailPort (specialist_directive (chars "Cardiologist") (chars "r"))
      = Except.error (chars "‘timeout’"))
  ∧ (∃ d, _run_specialist unicodeFailPort (chars "Cardiologist") (chars "r")
      = some (⟨chars "Cardiologist",
          chars "Error: Could not generate report. " ++ chars "‘timeout’"⟩, d)) :=
  ⟨by decide, rfl,
    (c10_sanitization_coverage.2.1 allOkPort (chars "Cardiologist") (chars "r")
      (by decide)).1 _ rfl,
    rfl,
    (c10_sanitization_coverage.2.1 unicodeFailPort (chars "Cardiologist") (chars "r")
      (by decide)).2 _ rfl⟩
